import Mathlib

/-!
Verification of the PingLayer authentication / multi-tenant core.

The definitions below are a shallow embedding of the Python modules
`app/core/security.py`, `app/core/dependencies.py` and
`app/modules/auth/service.py` (plus the token-minting code in
`app/modules/auth/router.py`).  Machine-level details are modelled as
follows: JWT signatures are symbolic (a signature is valid exactly when the
verifying key equals the signing key, which is what HMAC gives an observer
who cannot forge); time is epoch seconds as a natural number; Python
exceptions surface as `Except` errors; the database session is explicit
state (a `Store` value) with the unique constraints of the ORM models
checked at insert time and rollback modelled by returning the unchanged
store.
-/

namespace PingLayer

/-! ### Decimal digits: machinery for Python's `int(str(n)) == n` round trip -/

/-- Fuel-free counterpart of `Nat.toDigitsCore` at base 10: the decimal
digit characters of `n`, most significant first. -/
def digitsAux (n : Nat) : List Char :=
  if _h : n < 10 then [Nat.digitChar n]
  else digitsAux (n / 10) ++ [Nat.digitChar (n % 10)]
decreasing_by exact Nat.div_lt_self (by omega) (by omega)

/-! ### Data model

JSON claim values, JWT payloads, tokens, the configuration contract and the
persisted records of `app/models/user.py` and `app/models/company.py`. -/

/-- A JSON value as it occurs in a JWT claim map of this codebase: the code
only ever stores strings (`str(user.id)`), ints (`user.company_id`) and
booleans (`user.is_admin`) under the non-timestamp keys. -/
inductive JValue where
  | jstr (s : String)
  | jnat (n : Nat)
  | jbool (b : Bool)
deriving DecidableEq, Repr

/-- The JWT claim map (a Python dict).  The code reads and writes exactly the
keys `sub`, `company_id`, `email`, `is_admin`, `exp` and `iat`; a `none`
field models an absent key, so `payload.get(k)` returning `None` is the
`none` case.  `exp` and `iat` are epoch seconds (python-jose serialises the
`datetime` values to integer timestamps). -/
structure Payload where
  sub : Option JValue := none
  company_id : Option JValue := none
  email : Option JValue := none
  is_admin : Option JValue := none
  exp : Option Nat := none
  iat : Option Nat := none
deriving DecidableEq, Repr

/-- Python truthiness of the claim dict: `not payload` is true exactly when
the dict is empty, i.e. every key of the model is absent. -/
def Payload.isEmptyDict (p : Payload) : Bool :=
  p.sub.isNone && p.company_id.isNone && p.email.isNone &&
    p.is_admin.isNone && p.exp.isNone && p.iat.isNone

/-- The Python exceptions the modelled code can raise (other than
`fastapi.HTTPException`). -/
inductive PyExc where
  /-- `int(None)` -/
  | typeError
  /-- `int(s)` for a string that is not a number -/
  | valueError
  /-- passlib `UnknownHashError` for an unidentifiable hash string -/
  | unknownHash
deriving DecidableEq, Repr

/-- Equality of `Except` results is decidable componentwise (used to
evaluate the model on concrete inputs). -/
instance {ε α : Type} [DecidableEq ε] [DecidableEq α] :
    DecidableEq (Except ε α) := fun a b =>
  match a, b with
  | .error x, .error y => decidable_of_iff (x = y) (by simp)
  | .ok x, .ok y => decidable_of_iff (x = y) (by simp)
  | .error _, .ok _ => isFalse (fun hc => by cases hc)
  | .ok _, .error _ => isFalse (fun hc => by cases hc)

/-- The configuration consumed by the security module (`app/config.py`):
`secret_key` (required, 32+ chars), `algorithm` (default HS256) and
`access_token_expire_minutes` (default 1440). -/
structure Config where
  secret_key : String
  algorithm : String := "HS256"
  access_token_expire_minutes : Nat := 1440
deriving DecidableEq, Repr

/-- A JWT as handled by python-jose, with the signature modelled
symbolically: a signed token remembers the payload, the header algorithm and
the key it was signed with, and signature verification succeeds exactly when
the verifier's key equals the signing key (what an HMAC gives a party that
cannot forge).  `garbage` stands for a string that does not parse as a JWT
at all (malformed payload / not a three-part token). -/
inductive Token where
  | signed (payload : Payload) (alg : String) (key : String)
  | garbage (s : String)
deriving DecidableEq, Repr

/-- The payload a token was built from (for stating what a minted token
carries on the wire). -/
def Token.payloadOf : Token → Option Payload
  | .signed p _ _ => some p
  | .garbage _ => none

/-- Model of `jose.jwt.encode(claims, key, algorithm=alg)`. -/
def jwtEncode (payload : Payload) (key : String) (alg : String) : Token :=
  .signed payload alg key

/-- Model of `jose.jwt.decode(token, key, algorithms=algs)` at time `now` (epoch
seconds): checks that the header algorithm is one of `algs`, that the
signature verifies under `key`, and — when an `exp` claim is present — that
`exp` is not in the past (python-jose raises `ExpiredSignatureError` iff
`exp < now`).  Any failure raises `JWTError`; since the caller
`decode_access_token` maps every `JWTError` to `None`, the model returns
`Option`. -/
def jwtDecode (t : Token) (key : String) (algs : List String) (now : Nat) :
    Option Payload :=
  match t with
  | .garbage _ => none
  | .signed p alg k =>
    if algs.contains alg && (k == key) then
      match p.exp with
      | some e => if e < now then none else some p
      | none => some p
    else none

/-! ### `app/core/security.py` -/

/-- Embedding of `create_access_token(data, expires_delta)` at current time `now`:
copies `data`, sets `exp = now + expires_delta` (or `now` plus the
configured TTL in minutes when no delta is given) and `iat = now`,
overwriting any such keys in `data`, and signs with the configured secret
and algorithm.  `expires_delta` is in seconds (a `timedelta`). -/
def create_access_token (cfg : Config) (data : Payload)
    (expires_delta : Option Nat) (now : Nat) : Token :=
  let expire := match expires_delta with
    | some d => now + d
    | none => now + 60 * cfg.access_token_expire_minutes
  jwtEncode { data with exp := some expire, iat := some now }
    cfg.secret_key cfg.algorithm

/-- Embedding of `decode_access_token(token)`: `jwt.decode` with the configured secret and
`algorithms=[settings.algorithm]`; returns the payload dict, or `None` on any
`JWTError` (invalid signature, malformed token, wrong algorithm, expired). -/
def decode_access_token (cfg : Config) (t : Token) (now : Nat) :
    Option Payload :=
  jwtDecode t cfg.secret_key [cfg.algorithm] now

/-- Embedding of `create_user_token(user_id, company_id, email)`: payload
`{"sub": str(user_id), "company_id": str(company_id), "email": email}`
passed to `create_access_token` with the default expiry. -/
def create_user_token (cfg : Config) (user_id company_id : Nat)
    (email : String) (now : Nat) : Token :=
  create_access_token cfg
    { sub := some (.jstr (Nat.repr user_id)),
      company_id := some (.jstr (Nat.repr company_id)),
      email := some (.jstr email) }
    none now

/-- Python `int(x)` applied to the result of `payload.get(k)`: `None` raises
`TypeError`; a string is parsed as a decimal numeral (ids in this system are
non-negative database keys, so `str`/`int` are modelled by
`Nat.repr`/`String.toNat?`) or raises `ValueError`; an int is returned as
is; a bool coerces to 0/1. -/
def pyInt : Option JValue → Except PyExc Nat
  | none => .error .typeError
  | some (.jstr s) =>
    match s.toNat? with
    | some n => .ok n
    | none => .error .valueError
  | some (.jnat n) => .ok n
  | some (.jbool b) => .ok (if b then 1 else 0)

/-- The dict returned by `extract_user_from_token`: `user_id` and
`company_id` converted with `int(...)`, `email` taken verbatim from the
claim map (absent key gives `None`). -/
structure UserInfo where
  user_id : Nat
  company_id : Nat
  email : Option JValue
deriving DecidableEq, Repr

/-- Embedding of `extract_user_from_token(token)`: decodes, returns `None` when the
payload is falsy (`None` or the empty dict), and otherwise builds the user
info dict.  The `int(...)` conversions can raise, so the result is an
`Except`. -/
def extract_user_from_token (cfg : Config) (t : Token) (now : Nat) :
    Except PyExc (Option UserInfo) :=
  match decode_access_token cfg t now with
  | none => .ok none
  | some p =>
    if p.isEmptyDict then .ok none
    else do
      let uid ← pyInt p.sub
      let cid ← pyInt p.company_id
      .ok (some { user_id := uid, company_id := cid, email := p.email })

/-- Embedding of `validate_password_strength(password)`: `(is_valid, error_message)`. -/
def validate_password_strength (password : String) : Bool × String :=
  if password.length < 8 then
    (false, "Password must be at least 8 characters long")
  else if !password.data.any (·.isUpper) then
    (false, "Password must contain at least one uppercase letter")
  else if !password.data.any (·.isLower) then
    (false, "Password must contain at least one lowercase letter")
  else if !password.data.any (·.isDigit) then
    (false, "Password must contain at least one digit")
  else
    (true, "")

/-! ### Password hashing (passlib `CryptContext(schemes=["bcrypt"])`)

`hash_password`/`verify_password` delegate entirely to passlib.  The model
keeps what the claims depend on: a modular-crypt-format hash string
`"$2b$12$" ++ salt ++ checksum` carrying its salt, a deterministic one-way
digest (an opaque stand-in function — no claim depends on its values),
recomputation with the embedded salt on verify, and passlib's behaviour of
raising `UnknownHashError` when the hash string cannot be identified as a
bcrypt hash, rather than returning `False`. -/

/-- The modular-crypt prefix bcrypt hashes produced by this context carry. -/
def bcryptIdent : String := "$2b$12$"

/-- Stand-in for the bcrypt key-derivation output on (salt, password). -/
def bcryptDigest (salt password : String) : Nat :=
  (salt.data ++ password.data).foldl (fun a c => a * 131 + c.toNat) 7

/-- Embedding of `hash_password(password)` with the fresh 22-character salt passlib drew
from the OS made explicit as an argument. -/
def hash_password (password : String) (salt : String) : String :=
  ⟨bcryptIdent.data ++ salt.data ++ (Nat.repr (bcryptDigest salt password)).data⟩

/-- passlib's identify step: a hash string is recognised as bcrypt iff it
carries the bcrypt ident prefix. -/
def bcryptRecognize (hashed : String) : Bool :=
  bcryptIdent.data.isPrefixOf hashed.data

/-- Embedding of `verify_password(plain_password, hashed_password)` =
`pwd_context.verify(...)`: if the hash is not identifiable, passlib raises
`UnknownHashError`; otherwise it recomputes with the salt embedded in the
hash (the 22 characters after the 7-character ident) and compares. -/
def verify_password (plain_password hashed_password : String) :
    Except PyExc Bool :=
  if bcryptRecognize hashed_password then
    let salt : String := ⟨(hashed_password.data.drop 7).take 22⟩
    .ok (hash_password plain_password salt == hashed_password)
  else
    .error .unknownHash

/-! ### The store (`app/models/user.py`, `app/models/company.py`) -/

/-- A persisted user row.  `is_active` defaults to true and `is_admin` to
false, as in the column defaults. -/
structure UserRec where
  id : Nat
  email : String
  hashed_password : String
  full_name : String
  company_id : Nat
  is_active : Bool := true
  is_admin : Bool := false
deriving DecidableEq, Repr

/-- A persisted company row (the fields the auth core touches). -/
structure CompanyRec where
  id : Nat
  name : String
  slug : String
deriving DecidableEq, Repr

/-- The database state visible to the auth core, with the autoincrement
counters made explicit. -/
structure Store where
  users : List UserRec
  companies : List CompanyRec
  next_user_id : Nat
  next_company_id : Nat
deriving DecidableEq, Repr

/-- Embedding of `db.query(User).filter(User.id == uid).first()`. -/
def Store.findUserById (db : Store) (uid : Nat) : Option UserRec :=
  db.users.find? (fun u => u.id == uid)

/-- Embedding of `db.query(User).filter(User.email == e).first()` — note: no company
filter, the lookup is global across tenants. -/
def Store.findUserByEmail (db : Store) (e : String) : Option UserRec :=
  db.users.find? (fun u => u.email == e)

/-- Embedding of `db.query(Company).filter(Company.name == n).first()`. -/
def Store.findCompanyByName (db : Store) (n : String) : Option CompanyRec :=
  db.companies.find? (fun c => c.name == n)

/-! ### `app/core/dependencies.py` -/

/-- Model of `fastapi.HTTPException(status_code, detail)`. -/
structure HTTPError where
  status_code : Nat
  detail : String
deriving DecidableEq, Repr

/-- How a request handler can fail: a raised `HTTPException`, or an
uncaught ordinary Python exception (which FastAPI turns into a 500). -/
inductive Failure where
  | http (e : HTTPError)
  | exc (e : PyExc)
deriving DecidableEq, Repr

/-- The `CurrentUser` context object. -/
structure CurrentUser where
  user_id : Nat
  company_id : Nat
  email : Option JValue
deriving DecidableEq, Repr

/-- Embedding of `get_current_user(credentials, db)` on the bearer token `t` at time
`now`: extract the user info from the token (401 when that yields `None`),
look the user up by id (404 when absent), reject inactive users (403), and
otherwise return a `CurrentUser` built from the token claims — the store
record is consulted only for existence and `is_active`. -/
def get_current_user (cfg : Config) (db : Store) (t : Token) (now : Nat) :
    Except Failure CurrentUser :=
  match extract_user_from_token cfg t now with
  | .error e => .error (.exc e)
  | .ok none => .error (.http ⟨401, "Invalid or expired token"⟩)
  | .ok (some info) =>
    match db.findUserById info.user_id with
    | none => .error (.http ⟨404, "User not found"⟩)
    | some u =>
      if !u.is_active then .error (.http ⟨403, "User account is inactive"⟩)
      else .ok { user_id := info.user_id, company_id := info.company_id,
                 email := info.email }

/-- Embedding of `get_current_user_optional(credentials, db)`: `None` when no bearer
credentials were sent; otherwise delegates to `get_current_user` and maps a
raised `HTTPException` — and only an `HTTPException` — to `None`. -/
def get_current_user_optional (cfg : Config) (db : Store)
    (cred : Option Token) (now : Nat) : Except Failure (Option CurrentUser) :=
  match cred with
  | none => .ok none
  | some t =>
    match get_current_user cfg db t now with
    | .ok u => .ok (some u)
    | .error (.http _) => .ok none
    | .error (.exc e) => .error (.exc e)

/-- Embedding of `require_admin(current_user)`: re-reads the user row by
`current_user.user_id` from a fresh session and raises 403 when the row is
gone or `is_admin` is false; otherwise returns the identity unchanged. -/
def require_admin (db : Store) (current_user : CurrentUser) :
    Except Failure CurrentUser :=
  match db.findUserById current_user.user_id with
  | none => .error (.http ⟨403, "Admin access required"⟩)
  | some u =>
    if !u.is_admin then .error (.http ⟨403, "Admin access required"⟩)
    else .ok current_user

/-! ### `app/modules/auth/service.py` and `app/modules/auth/router.py` -/

/-- The registration request body (`UserCreate`). -/
structure UserCreate where
  full_name : String
  email : String
  password : String
  company_name : String
deriving DecidableEq, Repr

/-- The tenant slug derived in `register_new_user`:
`company_name.lower().replace(" ", "-").replace("_", "-")` (the two
replacements are single-character, so they act characterwise). -/
def slugify (company_name : String) : String :=
  ⟨company_name.data.map (fun c =>
    let lc := c.toLower
    if lc = ' ' then '-' else if lc = '_' then '-' else lc)⟩

/-- The unique constraints the ORM declares: `companies.name`,
`companies.slug`, and `(users.email, users.company_id)`. -/
inductive DBConstraint where
  | companyName
  | companySlug
  | userEmailCompany
deriving DecidableEq, Repr

/-- The backend's `IntegrityError` message for each unique constraint
(the sqlalchemy/sqlite text the service's `str(e).lower()` dispatch sees). -/
def constraintMsg : DBConstraint → String
  | .companyName => "unique constraint failed: companies.name"
  | .companySlug => "unique constraint failed: companies.slug"
  | .userEmailCompany => "unique constraint failed: users.email, users.company_id"

/-- Whether `needle.isPrefixOf rest` for some suffix `rest` of the haystack. -/
def containsSub (needle : List Char) : List Char → Bool
  | [] => needle.isEmpty
  | c :: rest => needle.isPrefixOf (c :: rest) || containsSub needle rest

/-- Python `needle in haystack` on strings. -/
def pyInStr (needle haystack : String) : Bool :=
  containsSub needle.data haystack.data

/-- The `except IntegrityError` branch of `register_new_user`: dispatches on
substrings of `str(e).lower()` — "email" first, then "slug" or "name",
else a generic conflict message. -/
def integrityErrorResponse (e : DBConstraint) : HTTPError :=
  let msg := constraintMsg e
  if pyInStr ⟨['e', 'm', 'a', 'i', 'l']⟩ msg then
    ⟨400, "Email already registered"⟩
  else if pyInStr ⟨['s', 'l', 'u', 'g']⟩ msg || pyInStr ⟨['n', 'a', 'm', 'e']⟩ msg then
    ⟨400, "Company name already taken"⟩
  else
    ⟨400, "Registration failed due to data conflict"⟩

/-- The value a registration request produces: the created user row, or the
`HTTPException` it raises. -/
inductive RegResult where
  | ok (user : UserRec)
  | error (e : HTTPError)
deriving DecidableEq, Repr

/-- The store after a request plus the value or error the request produced;
an error always comes with the rolled-back (unchanged) store. -/
structure RegOutcome where
  db : Store
  result : RegResult
deriving DecidableEq, Repr

/-- Embedding of `register_new_user(db, user_data)` with the bcrypt salt made explicit:
password-strength gate, global duplicate-email pre-check, exact-name
duplicate-company pre-check, then a transaction inserting the company
(flush: `companies.name` / `companies.slug` unique constraints) and the
user (commit: `(users.email, users.company_id)` unique constraint);
an `IntegrityError` rolls the transaction back, leaving the store
unchanged, and is translated by `integrityErrorResponse`. -/
def register_new_user (db : Store) (user_data : UserCreate) (salt : String) :
    RegOutcome :=
  let pw := validate_password_strength user_data.password
  if !pw.1 then ⟨db, .error ⟨400, pw.2⟩⟩
  else if (db.findUserByEmail user_data.email).isSome then
    ⟨db, .error ⟨400, "Email already registered"⟩⟩
  else if (db.findCompanyByName user_data.company_name).isSome then
    ⟨db, .error ⟨400, "Company name already taken"⟩⟩
  else
    let company : CompanyRec :=
      ⟨db.next_company_id, user_data.company_name, slugify user_data.company_name⟩
    if db.companies.any (fun c => c.name == company.name) then
      ⟨db, .error (integrityErrorResponse .companyName)⟩
    else if db.companies.any (fun c => c.slug == company.slug) then
      ⟨db, .error (integrityErrorResponse .companySlug)⟩
    else
      let user : UserRec :=
        { id := db.next_user_id, email := user_data.email,
          hashed_password := hash_password user_data.password salt,
          full_name := user_data.full_name, company_id := company.id }
      if db.users.any (fun u => u.email == user.email && u.company_id == user.company_id) then
        ⟨db, .error (integrityErrorResponse .userEmailCompany)⟩
      else
        ⟨{ users := db.users ++ [user], companies := db.companies ++ [company],
           next_user_id := db.next_user_id + 1,
           next_company_id := db.next_company_id + 1 },
         .ok user⟩

/-- The access token minted by `POST /register` and `POST /login`
(`app/modules/auth/router.py`): `create_access_token` is called directly
with `{"sub": str(user.id), "company_id": user.company_id,
"is_admin": user.is_admin}` — the `company_id` claim is the raw int, not a
string, and there is no `email` claim. -/
def router_access_token (cfg : Config) (user : UserRec) (now : Nat) : Token :=
  create_access_token cfg
    { sub := some (.jstr (Nat.repr user.id)),
      company_id := some (.jnat user.company_id),
      is_admin := some (.jbool user.is_admin) }
    none now

/-! ### Concrete fixtures used to witness the theorems -/

/-- A configuration with a 32-character secret and the defaults. -/
def cfgW : Config := { secret_key := "0123456789abcdef0123456789abcdef" }

def wrongKeyW : String := "fedcba9876543210fedcba9876543210"

def emailW : String := "w@example.com"

def emailA : String := "a@x.com"

def emailB : String := "b@x.com"

def nameA : String := "Alice"

def nameB : String := "Bob"

def coNameA : String := "Acme Corp"

def coNameB : String := "ACME CORP"

def pwWeakW : String := "abc"

def pwStrongA : String := "Passw0rdA"

def pwStrongB : String := "Passw0rdB"

def pwW : String := "Sup3rSecret"

def saltW : String := "s"

/-- A 22-character bcrypt salt. -/
def salt22W : String := "abcdefghijklmnopqrstuv"

def junkHashW : String := "not-a-bcrypt-hash"

def dummyHashW : String := "h"

def garbageW : String := "not-a-jwt"

def dbEmptyW : Store := ⟨[], [], 1, 1⟩

/-- A well-signed unexpired token whose nonempty payload has no `sub`. -/
def tokC1bad : Token :=
  .signed { email := some (.jstr emailW) } cfgW.algorithm cfgW.secret_key

/-- A fully populated payload for user 7 in company 9 expiring at 100. -/
def pC1 : Payload :=
  { sub := some (.jstr (Nat.repr 7)), company_id := some (.jstr (Nat.repr 9)),
    email := some (.jstr emailW), exp := some 100, iat := some 0 }

def tokC1ok : Token := .signed pC1 cfgW.algorithm cfgW.secret_key

/-- An unexpired (at time 10) claim set. -/
def pFreshW : Payload :=
  { sub := some (.jstr (Nat.repr 1)), company_id := some (.jstr (Nat.repr 1)),
    email := some (.jstr emailW), exp := some 1000, iat := some 0 }

/-- The same claim set already expired at time 10. -/
def pExpiredW : Payload := { pFreshW with exp := some 5 }

/-- A well-signed unexpired token whose nonempty payload has no `sub`
(distinct from `tokC1bad`). -/
def tokC5bad : Token :=
  .signed { is_admin := some (.jbool true) } cfgW.algorithm cfgW.secret_key

def tokGarbageW : Token := .garbage garbageW

def adminW : UserRec :=
  { id := 1, email := emailW, hashed_password := dummyHashW,
    full_name := nameA, company_id := 1, is_admin := true }

def dbAdminW : Store := ⟨[adminW], [], 2, 2⟩

def cuW : CurrentUser := ⟨1, 1, some (.jstr emailW)⟩

def udWeakW : UserCreate := ⟨nameA, emailA, pwWeakW, coNameA⟩

def ud1W : UserCreate := ⟨nameA, emailA, pwStrongA, coNameA⟩

def ud2W : UserCreate := ⟨nameB, emailB, pwStrongB, coNameB⟩

/-- The row the first registration of `ud1W` creates in the empty store. -/
def u1W : UserRec :=
  { id := 1, email := emailA, hashed_password := hash_password pwStrongA saltW,
    full_name := nameA, company_id := 1 }

def userC10 : UserRec :=
  { id := 1, email := emailA, hashed_password := dummyHashW,
    full_name := nameA, company_id := 1 }

def dbC10 : Store := ⟨[userC10], [⟨1, coNameA, slugify coNameA⟩], 2, 2⟩

/-- A registration request reusing `emailA` under a fresh company name. -/
def udC10 : UserCreate := ⟨nameB, emailA, pwStrongB, coNameB⟩

def userC4 : UserRec :=
  { id := 1, email := emailA, hashed_password := dummyHashW,
    full_name := nameA, company_id := 2 }

/-! ### Basic lemmas about the model -/

theorem digitChar_isDigit {n : Nat} (h : n < 10) : (Nat.digitChar n).isDigit = true := by
  interval_cases n <;> decide

theorem digitChar_toNat {n : Nat} (h : n < 10) : (Nat.digitChar n).toNat - Char.toNat '0' = n := by
  interval_cases n <;> decide

theorem digitsAux_ne_nil (n : Nat) : digitsAux n ≠ [] := by
  rw [digitsAux]
  split <;> simp

theorem digitsAux_all_isDigit (n : Nat) : ∀ c ∈ digitsAux n, c.isDigit = true := by
  induction n using Nat.strong_induction_on with
  | _ n ih =>
    rw [digitsAux]
    split
    · next h =>
      intro c hc
      simp only [List.mem_singleton] at hc
      subst hc
      exact digitChar_isDigit h
    · next h =>
      intro c hc
      rcases List.mem_append.mp hc with h1 | h1
      · exact ih (n / 10) (Nat.div_lt_self (by omega) (by omega)) c h1
      · simp only [List.mem_singleton] at h1
        subst h1
        exact digitChar_isDigit (Nat.mod_lt _ (by omega))

theorem digitsAux_foldl (n : Nat) : ∀ a : Nat,
    (digitsAux n).foldl (fun a c => a * 10 + (c.toNat - Char.toNat '0')) a
      = a * 10 ^ (digitsAux n).length + n := by
  induction n using Nat.strong_induction_on with
  | _ n ih =>
    intro a
    rw [digitsAux]
    split
    · next h =>
      simp only [List.foldl_cons, List.foldl_nil, List.length_singleton, pow_one]
      rw [digitChar_toNat h]
    · next h =>
      rw [List.foldl_append, ih (n / 10) (Nat.div_lt_self (by omega) (by omega))]
      simp only [List.foldl_cons, List.foldl_nil, List.length_append, List.length_singleton]
      rw [digitChar_toNat (Nat.mod_lt _ (by omega))]
      rw [pow_succ]
      have hdm : n / 10 * 10 + n % 10 = n := Nat.div_add_mod' n 10
      generalize (10 : Nat) ^ (digitsAux (n / 10)).length = p
      have hring : (a * p + n / 10) * 10 + (n % 10)
          = a * (p * 10) + (n / 10 * 10 + n % 10) := by ring
      rw [hring, hdm]

theorem toDigitsCore_eq_digitsAux :
    ∀ (fuel n : Nat) (ds : List Char), n < fuel →
      Nat.toDigitsCore 10 fuel n ds = digitsAux n ++ ds := by
  intro fuel
  induction fuel with
  | zero => intro n ds h; omega
  | succ f ihf =>
    intro n ds h
    show (if n / 10 = 0 then Nat.digitChar (n % 10) :: ds
          else Nat.toDigitsCore 10 f (n / 10) (Nat.digitChar (n % 10) :: ds))
        = digitsAux n ++ ds
    split
    · next h0 =>
      rw [digitsAux]
      rw [dif_pos (by omega : n < 10)]
      have hm : n % 10 = n := Nat.mod_eq_of_lt (by omega)
      rw [hm]
      rfl
    · next h0 =>
      rw [ihf (n / 10) _ (by omega)]
      conv_rhs => rw [digitsAux, dif_neg (by omega : ¬ n < 10)]
      simp [List.append_assoc]

theorem repr_data (n : Nat) : (Nat.repr n).data = digitsAux n := by
  show ((Nat.toDigits 10 n).asString).data = digitsAux n
  rw [Nat.toDigits, toDigitsCore_eq_digitsAux (n + 1) n [] (Nat.lt_succ_self n)]
  rw [List.append_nil]
  rfl

/-- Python's `int(str(n)) == n` for a non-negative integer, in terms of the
Lean model functions `Nat.repr` (for `str`) and `String.toNat?` (for `int`). -/
theorem toNat?_repr (n : Nat) : String.toNat? (Nat.repr n) = some n := by
  have hd : (Nat.repr n).data = digitsAux n := repr_data n
  have hne : (Nat.repr n) ≠ "" := by
    intro hcon
    have : (Nat.repr n).data = [] := by rw [hcon]
    rw [hd] at this
    exact digitsAux_ne_nil n this
  have hisNat : (Nat.repr n).isNat = true := by
    rw [String.isNat]
    have h1 : (Nat.repr n).isEmpty = false := by
      rcases Bool.eq_false_or_eq_true (Nat.repr n).isEmpty with h | h
      · exact absurd ((String.isEmpty_iff _).mp h) hne
      · exact h
    rw [h1]
    simp only [Bool.not_false, Bool.true_and]
    rw [String.all_eq, hd]
    rw [List.all_eq_true]
    exact digitsAux_all_isDigit n
  rw [String.toNat?, if_pos hisNat]
  congr 1
  rw [String.foldl_eq, hd, digitsAux_foldl n 0]
  simp

/-- The password gate fails exactly when the password is short or misses a
character class, matching the four checks of `validate_password_strength`. -/
theorem validate_false_iff (p : String) :
    (validate_password_strength p).1 = false ↔
      (p.length < 8 ∨ p.data.any (·.isUpper) = false
        ∨ p.data.any (·.isLower) = false ∨ p.data.any (·.isDigit) = false) := by
  unfold validate_password_strength
  split_ifs with h1 h2 h3 h4 <;> simp_all

/-- A successful registration appends exactly one company row, carrying the
requested name and its derived slug. -/
theorem register_ok_companies (db : Store) (ud : UserCreate) (salt : String)
    (u : UserRec) (h : (register_new_user db ud salt).result = .ok u) :
    (register_new_user db ud salt).db.companies
      = db.companies
          ++ [⟨db.next_company_id, ud.company_name, slugify ud.company_name⟩] := by
  simp only [register_new_user] at h ⊢
  revert h
  split_ifs <;> intro h <;> simp_all

/-- Registering against a store that already holds a company whose slug
collides with the request's derived slug fails with a 400 duplicate error
(duplicate email or duplicate company name, depending on which check fires
first) and leaves the store unchanged. -/
theorem register_dup_slug (db : Store) (ud : UserCreate) (salt : String)
    (c : CompanyRec) (hc : c ∈ db.companies)
    (hslug : slugify ud.company_name = c.slug)
    (hpw : (validate_password_strength ud.password).1 = true) :
    (register_new_user db ud salt).db = db
    ∧ ((register_new_user db ud salt).result
          = .error ⟨400, "Email already registered"⟩
        ∨ (register_new_user db ud salt).result
          = .error ⟨400, "Company name already taken"⟩) := by
  have hresp1 : integrityErrorResponse .companyName
      = ⟨400, "Company name already taken"⟩ := by decide
  have hresp2 : integrityErrorResponse .companySlug
      = ⟨400, "Company name already taken"⟩ := by decide
  have hslugany :
      db.companies.any (fun c' => c'.slug == slugify ud.company_name) = true := by
    rw [List.any_eq_true]
    exact ⟨c, hc, by rw [hslug]; exact beq_self_eq_true c.slug⟩
  simp only [register_new_user]
  split_ifs <;> simp_all [hresp1, hresp2]

/-! ### The claims -/

/-- C3: for every `user_id`, `company_id` and `email`, decoding a token
minted by `create_user_token(user_id, company_id, email)` before its expiry
via `extract_user_from_token` returns exactly
`{user_id, company_id, email}`; in particular every token minted for a user
carries exactly the `company_id` it was bound to at mint time. -/
theorem C3_token_round_trip (cfg : Config) (user_id company_id : Nat)
    (email : String) (mint now : Nat)
    (h : now < mint + 60 * cfg.access_token_expire_minutes) :
    extract_user_from_token cfg
        (create_user_token cfg user_id company_id email mint) now
      = .ok (some ⟨user_id, company_id, some (.jstr email)⟩) := by
  have hexp : ¬ (mint + 60 * cfg.access_token_expire_minutes < now) := by omega
  simp [extract_user_from_token, decode_access_token, create_user_token,
    create_access_token, jwtEncode, jwtDecode, hexp, Payload.isEmptyDict,
    pyInt, toNat?_repr, bind, Except.bind]

/-- Witness for `C3_token_round_trip` at user 7, company 9, mint time 0,
decode time 60. -/
theorem C3_token_round_trip_witness :
    (60 < 0 + 60 * cfgW.access_token_expire_minutes)
    ∧ extract_user_from_token cfgW (create_user_token cfgW 7 9 emailW 0) 60
        = .ok (some ⟨7, 9, some (.jstr emailW)⟩) :=
  ⟨by decide, C3_token_round_trip cfgW 7 9 emailW 0 60 (by decide)⟩

/-- C6: `require_admin` re-reads the caller's user row fresh from the store
by `user_id` and checks its current `is_admin` flag: it raises 403 whenever
the row is absent or `is_admin` is false, and returns the identity unchanged
otherwise.  The outcome depends only on the store row, never on token
claims. -/
theorem C6_require_admin_fresh (db : Store) (current_user : CurrentUser) :
    ((db.findUserById current_user.user_id = none
        ∨ ∃ u, db.findUserById current_user.user_id = some u
             ∧ u.is_admin = false) →
      require_admin db current_user
        = .error (.http ⟨403, "Admin access required"⟩))
    ∧ (∀ u, db.findUserById current_user.user_id = some u → u.is_admin = true →
        require_admin db current_user = .ok current_user) := by
  constructor
  · rintro (h | ⟨u, hu, ha⟩)
    · simp [require_admin, h]
    · simp [require_admin, hu, ha]
  · intro u hu ha
    simp [require_admin, hu, ha]

/-- Witness for `C6_require_admin_fresh`: the admin row of `dbAdminW` passes
the guard unchanged. -/
theorem C6_require_admin_fresh_witness :
    dbAdminW.findUserById cuW.user_id = some adminW
    ∧ adminW.is_admin = true
    ∧ require_admin dbAdminW cuW = .ok cuW :=
  ⟨by decide, by decide,
    (C6_require_admin_fresh dbAdminW cuW).2 adminW (by decide) (by decide)⟩

/-- C7: a registration whose password is shorter than 8 characters or lacks
an uppercase letter, a lowercase letter, or a digit is rejected with the
weak-password 400 error carrying the validator's message, and the store is
left unchanged — no user and no company row is created. -/
theorem C7_weak_password_rejected (db : Store) (user_data : UserCreate)
    (salt : String)
    (h : user_data.password.length < 8
      ∨ user_data.password.data.any (·.isUpper) = false
      ∨ user_data.password.data.any (·.isLower) = false
      ∨ user_data.password.data.any (·.isDigit) = false) :
    (register_new_user db user_data salt).db = db
    ∧ (validate_password_strength user_data.password).1 = false
    ∧ (register_new_user db user_data salt).result
        = .error ⟨400, (validate_password_strength user_data.password).2⟩ := by
  have hv : (validate_password_strength user_data.password).1 = false :=
    (validate_false_iff _).mpr h
  refine ⟨?_, hv, ?_⟩ <;> simp [register_new_user, hv]

/-- Witness for `C7_weak_password_rejected` on the password of `udWeakW`. -/
theorem C7_weak_password_rejected_witness :
    udWeakW.password.length < 8
    ∧ (register_new_user dbEmptyW udWeakW saltW).db = dbEmptyW
    ∧ (register_new_user dbEmptyW udWeakW saltW).result
        = .error ⟨400, (validate_password_strength udWeakW.password).2⟩ :=
  ⟨by decide,
    (C7_weak_password_rejected dbEmptyW udWeakW saltW (.inl (by decide))).1,
    (C7_weak_password_rejected dbEmptyW udWeakW saltW (.inl (by decide))).2.2⟩

/-- C10: the registration pre-check enforces email uniqueness globally: if
any user in any company already owns the requested email, registration
(with an otherwise acceptable password) fails with the duplicate-email 400
error and the store is unchanged — even though the declared ORM constraint
is only `(email, company_id)` per tenant.  Note the hypothesis places the
existing user in an arbitrary company, unrelated to the request. -/
theorem C10_global_email_uniqueness (db : Store) (user_data : UserCreate)
    (salt : String) (u : UserRec)
    (hpw : (validate_password_strength user_data.password).1 = true)
    (hu : u ∈ db.users) (he : u.email = user_data.email) :
    (register_new_user db user_data salt).db = db
    ∧ (register_new_user db user_data salt).result
        = .error ⟨400, "Email already registered"⟩ := by
  have hfind : (db.findUserByEmail user_data.email).isSome = true := by
    rw [Store.findUserByEmail, List.find?_isSome]
    exact ⟨u, hu, by rw [he]; exact beq_self_eq_true user_data.email⟩
  constructor <;> simp [register_new_user, hpw, hfind]

/-- Witness for `C10_global_email_uniqueness`: `udC10` reuses the email of
the existing `userC10` (who lives in company 1 under a different company
name) and is rejected. -/
theorem C10_global_email_uniqueness_witness :
    (validate_password_strength udC10.password).1 = true
    ∧ userC10 ∈ dbC10.users
    ∧ userC10.email = udC10.email
    ∧ (register_new_user dbC10 udC10 saltW).db = dbC10
    ∧ (register_new_user dbC10 udC10 saltW).result
        = .error ⟨400, "Email already registered"⟩ :=
  ⟨by decide, by decide, by decide,
    (C10_global_email_uniqueness dbC10 udC10 saltW userC10 (by decide)
      (by decide) (by decide)).1,
    (C10_global_email_uniqueness dbC10 udC10 saltW userC10 (by decide)
      (by decide) (by decide)).2⟩

/-- C1 (counterexample): the claim quantifies over every bearer token, but
a well-signed, unexpired token whose nonempty payload lacks a `sub` claim
(`tokC1bad`) defeats the claimed case analysis: decoding/verification
succeeds (first conjunct), yet the resolver neither signals 401/404/403 nor
returns an identity — `int(payload.get("sub"))` is `int(None)`, an uncaught
`TypeError` that surfaces as a 500 (second conjunct). -/
theorem C1_counterexample :
    decode_access_token cfgW tokC1bad 0 = some { email := some (.jstr emailW) }
    ∧ get_current_user cfgW dbEmptyW tokC1bad 0 = .error (.exc .typeError) := by
  constructor <;> decide

/-- C1 (amended): for every bearer token whose verified claims carry an
integer-parseable `sub` and `company_id` — which all tokens minted by this
system do — the resolver behaves as claimed: decode failure signals 401;
with a decoded payload, a missing credential record signals 404, an
inactive record signals 403, and otherwise the returned identity takes
`user_id`, `company_id` and `email` from the token claims (the store row
influences only existence and `is_active`). -/
theorem C1_identity_resolver (cfg : Config) (db : Store) (t : Token)
    (now : Nat) :
    (decode_access_token cfg t now = none →
      get_current_user cfg db t now
        = .error (.http ⟨401, "Invalid or expired token"⟩))
    ∧ (∀ p u c, decode_access_token cfg t now = some p →
        pyInt p.sub = .ok u → pyInt p.company_id = .ok c →
        get_current_user cfg db t now
          = match db.findUserById u with
            | none => .error (.http ⟨404, "User not found"⟩)
            | some r =>
              if r.is_active then .ok ⟨u, c, p.email⟩
              else .error (.http ⟨403, "User account is inactive"⟩)) := by
  constructor
  · intro h
    simp [get_current_user, extract_user_from_token, h]
  · intro p u c hdec hsub hcid
    have hne : p.isEmptyDict = false := by
      cases hs : p.sub with
      | none => rw [hs] at hsub; simp [pyInt] at hsub
      | some v => simp [Payload.isEmptyDict, hs]
    simp only [get_current_user, extract_user_from_token, hdec, hne,
      Bool.false_eq_true, if_false, hsub, hcid, bind, Except.bind]
    cases hf : db.findUserById u with
    | none => simp
    | some r => cases hr : r.is_active <;> simp [hr]

/-- Witness for `C1_identity_resolver`: the well-formed token `tokC1ok`
names user 7, who does not exist in the empty store, so resolution signals
404. -/
theorem C1_identity_resolver_witness :
    decode_access_token cfgW tokC1ok 5 = some pC1
    ∧ get_current_user cfgW dbEmptyW tokC1ok 5
        = .error (.http ⟨404, "User not found"⟩) :=
  ⟨by decide, by
    rw [(C1_identity_resolver cfgW dbEmptyW tokC1ok 5).2 pC1 7 9 (by decide)
      (by simp [pyInt, pC1, toNat?_repr]) (by simp [pyInt, pC1, toNat?_repr])]
    decide⟩

/-- C2 (counterexample): verification does not classify failures into
distinct outcomes — `decode_access_token` returns the same value `None` for
a token signed with a different secret (first input, the claimed Invalid
case) and for a well-signed expired token (second input, the claimed
Expired case), so no `AuthError(Invalid)` / `AuthError(Expired)`
distinction exists in the code. -/
theorem C2_counterexample :
    decode_access_token cfgW (jwtEncode pFreshW wrongKeyW cfgW.algorithm) 10
      = decode_access_token cfgW
          (jwtEncode pExpiredW cfgW.secret_key cfgW.algorithm) 10
    ∧ decode_access_token cfgW (jwtEncode pFreshW wrongKeyW cfgW.algorithm) 10
      = none := by
  constructor <;> decide

/-- C2 (amended): `decode_access_token` returns the single failure value
`None` on every failure — wrong signing secret, malformed token, unexpected
algorithm, or expiry (`exp < now`) — collapsing Invalid and Expired into
one outcome; in particular a token signed with a secret other than the
verifier's configured secret always yields `None`, never a payload. -/
theorem C2_decode_failure_modes (cfg : Config) (now : Nat) :
    (∀ p alg key, key ≠ cfg.secret_key →
      decode_access_token cfg (.signed p alg key) now = none)
    ∧ (∀ s, decode_access_token cfg (.garbage s) now = none)
    ∧ (∀ p alg key, alg ≠ cfg.algorithm →
        decode_access_token cfg (.signed p alg key) now = none)
    ∧ (∀ p alg key e, p.exp = some e → e < now →
        decode_access_token cfg (.signed p alg key) now = none) := by
  refine ⟨?_, ?_, ?_, ?_⟩
  · intro p alg key hk
    simp [decode_access_token, jwtDecode, hk]
  · intro s
    simp [decode_access_token, jwtDecode]
  · intro p alg key ha
    simp [decode_access_token, jwtDecode, ha]
  · intro p alg key e he hlt
    simp only [decode_access_token, jwtDecode]
    split
    · rw [he]
      simp [hlt]
    · rfl

/-- Witness for `C2_decode_failure_modes`: the wrong-secret token of
`C2_counterexample` decodes to `None` via the first conjunct. -/
theorem C2_decode_failure_modes_witness :
    wrongKeyW ≠ cfgW.secret_key
    ∧ decode_access_token cfgW (.signed pFreshW cfgW.algorithm wrongKeyW) 10
        = none :=
  ⟨by decide,
    (C2_decode_failure_modes cfgW 10).1 pFreshW cfgW.algorithm wrongKeyW
      (by decide)⟩

/-- C4: what the code actually does at the failing input — the token minted
by `POST /register` / `POST /login` for any user carries the claim map
`{sub: str(id), company_id: <raw int>, is_admin: <bool>, exp, iat}`: the
`email` claim is absent (`none`) and `company_id` is an int, not a
stringified id, contradicting the claimed wire format (and the docstrings
of `create_access_token` / `create_user_token`, whose stringified-and-email
payload the routers bypass). -/
theorem C4_router_token_claims (cfg : Config) (user : UserRec) (now : Nat) :
    (router_access_token cfg user now).payloadOf = some
      { sub := some (.jstr (Nat.repr user.id)),
        company_id := some (.jnat user.company_id),
        email := none,
        is_admin := some (.jbool user.is_admin),
        exp := some (now + 60 * cfg.access_token_expire_minutes),
        iat := some now } := rfl

/-- C5 (counterexample): the optional resolver does not return `None` on
every failing case — for the well-signed `sub`-less token `tokC5bad`,
required resolution raises `TypeError` (not an `HTTPException`), and
`get_current_user_optional`'s `except HTTPException` does not catch it, so
the request errors instead of resolving to `None`. -/
theorem C5_counterexample :
    get_current_user_optional cfgW dbEmptyW (some tokC5bad) 0
      = .error (.exc .typeError) := by decide

/-- C5 (amended): the optional resolver returns `None` when no bearer token
is sent, and whenever required resolution fails with an `HTTPException`
(invalid/expired token, missing or inactive user); it returns an identity
exactly when required resolution succeeds, and a non-HTTP exception raised
during resolution propagates instead of yielding `None`. -/
theorem C5_optional_resolver (cfg : Config) (db : Store) (cred : Option Token)
    (now : Nat) :
    (cred = none → get_current_user_optional cfg db cred now = .ok none)
    ∧ (∀ t e, cred = some t →
        get_current_user cfg db t now = .error (.http e) →
        get_current_user_optional cfg db cred now = .ok none)
    ∧ (∀ t u, cred = some t → get_current_user cfg db t now = .ok u →
        get_current_user_optional cfg db cred now = .ok (some u))
    ∧ (∀ t e, cred = some t →
        get_current_user cfg db t now = .error (.exc e) →
        get_current_user_optional cfg db cred now = .error (.exc e)) := by
  refine ⟨?_, ?_, ?_, ?_⟩
  · intro h
    simp [get_current_user_optional, h]
  · intro t e hc hr
    simp [get_current_user_optional, hc, hr]
  · intro t u hc hr
    simp [get_current_user_optional, hc, hr]
  · intro t e hc hr
    simp [get_current_user_optional, hc, hr]

/-- Witness for `C5_optional_resolver`: a garbage token makes required
resolution fail with 401 and the optional resolver returns `None`. -/
theorem C5_optional_resolver_witness :
    get_current_user cfgW dbEmptyW tokGarbageW 0
      = .error (.http ⟨401, "Invalid or expired token"⟩)
    ∧ get_current_user_optional cfgW dbEmptyW (some tokGarbageW) 0 = .ok none :=
  ⟨by decide,
    (C5_optional_resolver cfgW dbEmptyW (some tokGarbageW) 0).2.1 tokGarbageW
      ⟨401, "Invalid or expired token"⟩ rfl (by decide)⟩

/-- C8: after a successful registration, a second registration whose
`company_name` derives the same tenant slug (e.g. a case or spacing
variant) fails with a 400 duplicate-identity error — duplicate email or
duplicate company name, whichever check fires first — and the store after
the failure equals the store after the first registration: no partial
company row remains. -/
theorem C8_duplicate_company_registration (db0 : Store) (ud1 ud2 : UserCreate)
    (salt1 salt2 : String) (u1 : UserRec)
    (h1 : (register_new_user db0 ud1 salt1).result = .ok u1)
    (hslug : slugify ud2.company_name = slugify ud1.company_name)
    (hpw : (validate_password_strength ud2.password).1 = true) :
    (register_new_user (register_new_user db0 ud1 salt1).db ud2 salt2).db
        = (register_new_user db0 ud1 salt1).db
    ∧ ((register_new_user (register_new_user db0 ud1 salt1).db ud2 salt2).result
          = .error ⟨400, "Email already registered"⟩
        ∨ (register_new_user (register_new_user db0 ud1 salt1).db ud2 salt2).result
          = .error ⟨400, "Company name already taken"⟩) := by
  have hcomp := register_ok_companies db0 ud1 salt1 u1 h1
  refine register_dup_slug _ _ _
    ⟨db0.next_company_id, ud1.company_name, slugify ud1.company_name⟩ ?_ ?_ hpw
  · rw [hcomp]
    simp
  · exact hslug

/-- Witness for `C8_duplicate_company_registration`: registering company
name `ACME CORP` right after `Acme Corp` (same derived slug `acme-corp`)
fails and leaves the store as it was after the first registration. -/
theorem C8_duplicate_company_registration_witness :
    (register_new_user dbEmptyW ud1W saltW).result = .ok u1W
    ∧ slugify ud2W.company_name = slugify ud1W.company_name
    ∧ (register_new_user (register_new_user dbEmptyW ud1W saltW).db ud2W
          saltW).db
        = (register_new_user dbEmptyW ud1W saltW).db
    ∧ ((register_new_user (register_new_user dbEmptyW ud1W saltW).db ud2W
            saltW).result
          = .error ⟨400, "Email already registered"⟩
        ∨ (register_new_user (register_new_user dbEmptyW ud1W saltW).db ud2W
            saltW).result
          = .error ⟨400, "Company name already taken"⟩) :=
  ⟨by decide, by decide,
    (C8_duplicate_company_registration dbEmptyW ud1W ud2W saltW saltW u1W
      (by decide) (by decide) (by decide)).1,
    (C8_duplicate_company_registration dbEmptyW ud1W ud2W saltW saltW u1W
      (by decide) (by decide) (by decide)).2⟩

/-- C9 (counterexample): password verification does throw on a malformed
hash: for a hash string passlib cannot identify as bcrypt, `verify_password`
raises `UnknownHashError` instead of returning `false`. -/
theorem C9_counterexample :
    verify_password pwW junkHashW = .error .unknownHash := by decide

/-- C9 (amended): `verify_password` recomputes with the salt embedded in a
well-formed bcrypt hash and never throws on such hashes — verifying a
password against its own hash yields `Ok true` — but on a hash string that
passlib cannot identify it raises `UnknownHashError` rather than returning
`false`. -/
theorem C9_verify_password_behavior (plain salt hashed : String)
    (hsalt : salt.length = 22) :
    (bcryptRecognize hashed = false →
      verify_password plain hashed = .error .unknownHash)
    ∧ verify_password plain (hash_password plain salt) = .ok true := by
  constructor
  · intro h
    simp [verify_password, h]
  · have hrec : bcryptRecognize (hash_password plain salt) = true := by
      rw [bcryptRecognize, hash_password]
      rw [List.isPrefixOf_iff_prefix]
      show bcryptIdent.data <+: bcryptIdent.data ++ _
      exact List.prefix_append _ _
    have hdata : (hash_password plain salt).data
        = bcryptIdent.data
            ++ (salt.data ++ (Nat.repr (bcryptDigest salt plain)).data) := by
      rw [hash_password]
      show (bcryptIdent.data ++ salt.data ++ _) = _
      rw [List.append_assoc]
    have hdrop : (hash_password plain salt).data.drop 7
        = salt.data ++ (Nat.repr (bcryptDigest salt plain)).data := by
      rw [hdata]
      have h7 : bcryptIdent.data.length = 7 := rfl
      rw [← h7, List.drop_left]
    have htake : ((hash_password plain salt).data.drop 7).take 22
        = salt.data := by
      rw [hdrop]
      have h22 : salt.data.length = 22 := hsalt
      rw [← h22, List.take_left]
    simp only [verify_password, hrec, if_true]
    rw [htake]
    exact congrArg Except.ok (beq_self_eq_true (hash_password plain salt))

/-- Witness for `C9_verify_password_behavior` with the 22-character salt
`salt22W`: round trip succeeds and the junk hash raises. -/
theorem C9_verify_password_behavior_witness :
    salt22W.length = 22
    ∧ verify_password pwW (hash_password pwW salt22W) = .ok true
    ∧ verify_password pwW junkHashW = .error .unknownHash :=
  ⟨by decide,
    (C9_verify_password_behavior pwW salt22W junkHashW (by decide)).2,
    (C9_verify_password_behavior pwW salt22W junkHashW (by decide)).1
      (by decide)⟩

end PingLayer
